import Mathlib

/-!
Shallow embedding of the Airflow stock-data pipeline
(`src/dags/stock_pipeline.py`, `src/scripts/stock_data_fetcher.py`).

Modelling conventions:
* The process environment (`os.getenv`) is a function `String → Option String`.
* Network I/O (`requests.get` + `raise_for_status` + `.json()`) is an input
  `NetOutcome`: either a raised `requests` exception (`transportError`, which
  also stands for a non-2xx status or a JSON decode error — all are caught by
  the `except` clauses of `fetch_stock_data`) or a decoded JSON `Payload`.
* Python floats are modelled as rationals `ℚ`; `random.uniform(a, b)` is
  modelled as `a + (b - a) * r` with `r ∈ [0, 1]` supplied as an input draw
  (CPython computes exactly this expression); `random.randint` is an input
  integer constrained to the inclusive range.
* Python string formatting `f'{x:.2f}'` is modelled by `round2` (rounding to
  2 decimal places; ties are modelled half-up while CPython rounds half-even —
  the claims only use monotonicity and fixed points of the rounding, which the
  two agree on).
* Timestamps are hour indices in `ℤ`.  A timestamp string either parses under
  `strptime '%Y-%m-%d %H:%M:%S'` (constructor `TsStr.valid` with the parsed
  instant) or raises `ValueError` (`TsStr.invalid`).  The demo generator emits
  `'%Y-%m-%d %H:00:00'` strings, which parse under that format, hence `valid`.
* A raw field string either parses by `float(...)` and `int(...)`
  (`RawStr.intStr`), only by `float(...)` (`RawStr.floatStr`), or by neither
  (`RawStr.badStr`); a missing dict key (Python `KeyError`) is `none`.
* The PostgreSQL table `stock_prices` is a `List Row`; `INSERT ... ON CONFLICT
  (symbol, timestamp) DO UPDATE ... RETURNING (xmax = 0)` is `upsert_stock_price`,
  whose boolean result is the `xmax = 0` "freshly inserted" flag.  `created_at`
  is the table's last-modified marker (`DEFAULT CURRENT_TIMESTAMP` on insert,
  explicitly refreshed by the `DO UPDATE` clause).
* Database faults (connection failure, a failing `cursor.execute`, a failing
  `commit`) are injected through `DBFaults`; `conn.rollback()` and
  `conn.close()` themselves are modelled as non-failing.
* The `'Meta Data'` block of a payload is not modelled: no code under
  verification reads it.
-/

namespace StockPipeline

/-- The process environment: `os.getenv`. -/
abbrev Env := String → Option String

/-- The single credential variable read by the pipeline. -/
def api_key_var : String := "ALPHA_VANTAGE_API_KEY"

/-- Python truthiness test `not os.getenv(var)`: true when the variable is
unset (`None`) or set to the empty string. -/
def is_missing_env (v : Option String) : Bool :=
  match v with
  | none => true
  | some s => s == ""

/-- The list `required_vars = ['ALPHA_VANTAGE_API_KEY']` from `check_environment_variables`. -/
def required_vars : List String := [api_key_var]

/-- The `missing_vars` list built by `check_environment_variables`. -/
def missing_vars (env : Env) : List String :=
  required_vars.filter fun v => is_missing_env (env v)

/-- Error taxonomy of the pipeline (spec §7): `configurationError` is the
`ValueError` of `check_environment_variables`; `connectivityError` a failed
`psycopg2.connect`; `schemaError` the "Required table not found" exception;
`dataShapeError` the "No time series data found" exception of
`process_and_store_data`; `databaseError` any error raised by
`cursor.execute` or `conn.commit`. -/
inductive PipelineError where
  | configurationError (missing : List String)
  | connectivityError
  | schemaError
  | dataShapeError (symbol : String)
  | databaseError
deriving Repr, DecidableEq

/-- Model of `check_environment_variables` from `src/dags/stock_pipeline.py`:
collects the missing required variables and raises `ValueError` naming them
when the list is non-empty; otherwise returns `True`.  It touches nothing but
the environment (no network, no database). -/
def check_environment_variables (env : Env) : Except PipelineError Bool :=
  let missing := missing_vars env
  if missing.isEmpty then .ok true
  else .error (.configurationError missing)

/-- The test `if not api_key or api_key == 'your_api_key_here'` at the top of
`fetch_stock_data`. -/
def api_key_invalid (env : Env) : Bool :=
  match env api_key_var with
  | none => true
  | some s => s == "" || s == "your_api_key_here"

/-- A raw JSON string field of the time series, classified by how Python's
numeric casts treat it. -/
inductive RawStr where
  | floatStr (q : ℚ)
  | intStr (n : ℤ)
  | badStr (s : String)
deriving Repr, DecidableEq

/-- Python `float(s)`: succeeds on float-shaped and int-shaped literals. -/
def parse_float : RawStr → Option ℚ
  | .floatStr q => some q
  | .intStr n => some (n : ℚ)
  | .badStr _ => none

/-- Python `int(s)`: succeeds only on int-shaped literals (`int('1.5')` raises). -/
def parse_int : RawStr → Option ℤ
  | .intStr n => some n
  | .floatStr _ => none
  | .badStr _ => none

/-- A timestamp key of the time-series mapping: either a string that
`datetime.strptime(·, '%Y-%m-%d %H:%M:%S')` parses (to an instant, held at
hour resolution) or one it rejects with `ValueError`. -/
inductive TsStr where
  | valid (t : ℤ)
  | invalid (s : String)
deriving Repr, DecidableEq

/-- Model of `datetime.strptime(timestamp, '%Y-%m-%d %H:%M:%S')`. -/
def strptime_model : TsStr → Option ℤ
  | .valid t => some t
  | .invalid _ => none

/-- One value of the time-series mapping: the five labelled fields
`'1. open' … '5. volume'`; `none` models an absent key (`KeyError`). -/
structure RawEntry where
  open1 : Option RawStr
  high2 : Option RawStr
  low3 : Option RawStr
  close4 : Option RawStr
  volume5 : Option RawStr
deriving Repr, DecidableEq

/-- The `'Time Series (60min)'` mapping (a Python dict: insertion-ordered
association list). -/
abbrev TimeSeries := List (TsStr × RawEntry)

/-- A decoded provider payload.  Only the members the code inspects are
modelled: the `'Error Message'` field, the `'Note'` rate-limit field, and the
`'Time Series (60min)'` mapping (absent = `none`). -/
structure Payload where
  errorMessage : Option String
  note : Option String
  timeSeries : Option TimeSeries
deriving Repr, DecidableEq

/-! ## Demo data generator (`_get_demo_data`) -/

/-- The random draws consumed by one iteration of `_get_demo_data`'s loop:
`variation = random.uniform(-0.05, 0.05)`, `highVar, lowVar =
random.uniform(0, 0.02)`, `closeFrac` the `random.random()` factor inside
`random.uniform(low_price, high_price)`, and `vol = random.randint(100000,
1000000)`. -/
structure DemoDraw where
  variation : ℚ
  highVar : ℚ
  lowVar : ℚ
  closeFrac : ℚ
  vol : ℤ
deriving Repr, DecidableEq

/-- The ranges `random.uniform` / `random.randint` guarantee for the draws. -/
def DemoDraw.Valid (d : DemoDraw) : Prop :=
  -(1 / 20) ≤ d.variation ∧ d.variation ≤ 1 / 20 ∧
  0 ≤ d.highVar ∧ d.highVar ≤ 1 / 50 ∧
  0 ≤ d.lowVar ∧ d.lowVar ≤ 1 / 50 ∧
  0 ≤ d.closeFrac ∧ d.closeFrac ≤ 1 ∧
  100000 ≤ d.vol ∧ d.vol ≤ 1000000

instance (d : DemoDraw) : Decidable d.Valid := by
  unfold DemoDraw.Valid
  infer_instance

/-- Model of `base_prices.get(symbol, 100.0)`: the five configured base prices with
default 100.0 for any other symbol. -/
def basePrice (symbol : String) : ℚ :=
  if symbol == "AAPL" then 150
  else if symbol == "GOOGL" then 2800
  else if symbol == "MSFT" then 300
  else if symbol == "AMZN" then 3000
  else if symbol == "TSLA" then 200
  else 100

/-- Python formatting with two decimal places (ties modelled half-up; the
claims only use monotonicity and that multiples of 1/100 are fixed). -/
def round2 (q : ℚ) : ℚ := (⌊q * 100 + 1 / 2⌋ : ℤ) / 100

/-- The assignment `open_price = base_price * (1 + variation)`. -/
def demo_open (base : ℚ) (d : DemoDraw) : ℚ := base * (1 + d.variation)

/-- The assignment `high_price = open_price * (1 + random.uniform(0, 0.02))`. -/
def demo_high (base : ℚ) (d : DemoDraw) : ℚ := demo_open base d * (1 + d.highVar)

/-- The assignment `low_price = open_price * (1 - random.uniform(0, 0.02))`. -/
def demo_low (base : ℚ) (d : DemoDraw) : ℚ := demo_open base d * (1 - d.lowVar)

/-- The assignment `close_price = random.uniform(low_price, high_price)`, i.e.
`low + (high - low) * r` with `r = random.random()`. -/
def demo_close (base : ℚ) (d : DemoDraw) : ℚ :=
  demo_low base d + (demo_high base d - demo_low base d) * d.closeFrac

/-- One generated time-series value: the five fields serialised with
`f'{·:.2f}'` for the prices and `str(·)` for the volume. -/
def demo_entry (base : ℚ) (d : DemoDraw) : RawEntry :=
  { open1 := some (.floatStr (round2 (demo_open base d)))
    high2 := some (.floatStr (round2 (demo_high base d)))
    low3 := some (.floatStr (round2 (demo_low base d)))
    close4 := some (.floatStr (round2 (demo_close base d)))
    volume5 := some (.intStr d.vol) }

/-- The loop `for i in range(5)`: keys `(now - timedelta(hours=i)).strftime(
'%Y-%m-%d %H:00:00')`, i.e. the current hour and the 4 preceding hours, in
insertion order `i = 0, …, 4`. -/
def demo_series (base : ℚ) (now : ℤ) (draws : Fin 5 → DemoDraw) : TimeSeries :=
  List.ofFn fun i : Fin 5 => (TsStr.valid (now - (i.val : ℤ)), demo_entry base (draws i))

/-- Model of `_get_demo_data(symbol)` from `stock_data_fetcher.py` (the `'Meta Data'`
block is not modelled; no caller reads it). -/
def get_demo_data (symbol : String) (now : ℤ) (draws : Fin 5 → DemoDraw) : Payload :=
  { errorMessage := none
    note := none
    timeSeries := some (demo_series (basePrice symbol) now draws) }

/-! ## `fetch_stock_data` -/

/-- Outcome of the `requests.get` + `raise_for_status` + `.json()` sequence:
`transportError` models any raised exception (network failure, timeout,
non-2xx status, JSON decode error — all caught by `fetch_stock_data`'s
`except` clauses); `response d` a decoded JSON body. -/
inductive NetOutcome where
  | transportError
  | response (d : Payload)
deriving Repr, DecidableEq

/-- Model of `fetch_stock_data(symbol)` from `stock_data_fetcher.py`.  Branches, in
source order: invalid/missing key → demo data (no network use); any raised
exception → demo data (both `except` clauses fall back); `'Error Message'`
present → an exception is raised inside the `try` and caught by the blanket
`except Exception` → demo data; `'Note'` present → demo data;
`'Time Series (60min)'` absent → demo data; otherwise the payload is
returned unmodified. -/
def fetch_stock_data (symbol : String) (env : Env) (net : NetOutcome)
    (now : ℤ) (draws : Fin 5 → DemoDraw) : Payload :=
  if api_key_invalid env then get_demo_data symbol now draws
  else
    match net with
    | .transportError => get_demo_data symbol now draws
    | .response d =>
        if d.errorMessage.isSome then get_demo_data symbol now draws
        else if d.note.isSome then get_demo_data symbol now draws
        else
          match d.timeSeries with
          | none => get_demo_data symbol now draws
          | some _ => d

/-! ## The store and `process_and_store_data` -/

/-- One row of the `stock_prices` table. -/
structure Row where
  symbol : String
  timestamp : ℤ
  open_price : ℚ
  high_price : ℚ
  low_price : ℚ
  close_price : ℚ
  volume : ℤ
  created_at : ℤ
deriving Repr, DecidableEq

/-- The `parsed_data` dict built inside the loop of `process_and_store_data`. -/
structure ParsedData where
  symbol : String
  timestamp : ℤ
  open_price : ℚ
  high_price : ℚ
  low_price : ℚ
  close_price : ℚ
  volume : ℤ
deriving Repr, DecidableEq

/-- The construction of `parsed_data`: `strptime` on the timestamp, `float()`
on the four price fields, `int()` on the volume.  Any `ValueError` (bad
timestamp or non-numeric value) or `KeyError` (missing field) makes the whole
entry fail (`none`), which the loop's `except (ValueError, KeyError)` turns
into a skip. -/
def parse_data_point (symbol : String) (ts : TsStr) (v : RawEntry) : Option ParsedData :=
  match strptime_model ts, v.open1.bind parse_float, v.high2.bind parse_float,
      v.low3.bind parse_float, v.close4.bind parse_float, v.volume5.bind parse_int with
  | some t, some o, some h, some l, some c, some vol =>
      some { symbol := symbol, timestamp := t, open_price := o, high_price := h,
             low_price := l, close_price := c, volume := vol }
  | _, _, _, _, _, _ => none

/-- The row the INSERT statement writes: the seven explicit columns plus the
`created_at` column default `CURRENT_TIMESTAMP`. -/
def toRow (p : ParsedData) (nowTs : ℤ) : Row :=
  { symbol := p.symbol, timestamp := p.timestamp, open_price := p.open_price,
    high_price := p.high_price, low_price := p.low_price,
    close_price := p.close_price, volume := p.volume, created_at := nowTs }

/-- Does the store hold a row with the given (symbol, timestamp) key? -/
def hasKey (store : List Row) (s : String) (t : ℤ) : Bool :=
  store.any fun r => r.symbol == s && r.timestamp == t

/-- Number of rows with the given (symbol, timestamp) key. -/
def countKey (store : List Row) (s : String) (t : ℤ) : ℕ :=
  (store.filter fun r => r.symbol == s && r.timestamp == t).length

/-- The store's uniqueness invariant: no two rows share a (symbol, timestamp)
key (the table's UNIQUE constraint). -/
def uniqueKeysB : List Row → Bool
  | [] => true
  | r :: rs => !hasKey rs r.symbol r.timestamp && uniqueKeysB rs

/-- The `INSERT ... ON CONFLICT (symbol, timestamp) DO UPDATE ... RETURNING
(xmax = 0)` statement: on a fresh key, append the row (with `created_at`
filled by the column default `CURRENT_TIMESTAMP`) and report `true`
(inserted); on a key collision, overwrite the four price fields and the
volume of the matching row, refresh `created_at`, and report `false`
(updated). -/
def upsert_stock_price (store : List Row) (p : ParsedData) (nowTs : ℤ) :
    List Row × Bool :=
  if hasKey store p.symbol p.timestamp then
    (store.map fun r =>
      if r.symbol == p.symbol && r.timestamp == p.timestamp then
        { r with open_price := p.open_price, high_price := p.high_price,
                 low_price := p.low_price, close_price := p.close_price,
                 volume := p.volume, created_at := nowTs }
      else r, false)
  else
    (store ++ [toRow p nowTs], true)

/-- The entries of a time series that survive parsing (the ones the loop
does not skip), in order. -/
def parsed_points (symbol : String) (entries : TimeSeries) : List ParsedData :=
  entries.filterMap fun e => parse_data_point symbol e.1 e.2

/-- Upserting a list of parsed points left to right. -/
def upsert_batch (store : List Row) (ps : List ParsedData) (nowTs : ℤ) : List Row :=
  ps.foldl (fun s p => (upsert_stock_price s p nowTs).1) store

/-- Injected database faults: a failing `psycopg2.connect`, whether the n-th
`cursor.execute` of the write loop raises, and a failing `conn.commit`. -/
structure DBFaults where
  connectFails : Bool
  execFails : ℕ → Bool
  commitFails : Bool

/-- The fault-free database. -/
def noFaults : DBFaults :=
  { connectFails := false, execFails := fun _ => false, commitFails := false }

/-- Mutable state of the write loop: the transaction-local view of the table
(`pending`, published only by `commit`), the number of executed statements,
and the two counters `records_inserted` / `records_updated`. -/
structure LoopSt where
  pending : List Row
  execCount : ℕ
  inserted : ℕ
  updated : ℕ
deriving Repr

/-- The `for timestamp, values in time_series.items()` loop of
`process_and_store_data`: parse each entry (a `ValueError`/`KeyError` is
caught and the entry skipped), execute the upsert (a database error raised
by `cursor.execute` aborts the loop and propagates), and bump the counter
the `RETURNING (xmax = 0)` flag selects. -/
def write_loop (symbol : String) (nowTs : ℤ) (execFails : ℕ → Bool) :
    TimeSeries → LoopSt → Except PipelineError LoopSt
  | [], st => .ok st
  | e :: rest, st =>
      match parse_data_point symbol e.1 e.2 with
      | none => write_loop symbol nowTs execFails rest st
      | some p =>
          if execFails st.execCount then .error .databaseError
          else
            let res := upsert_stock_price st.pending p nowTs
            write_loop symbol nowTs execFails rest
              { pending := res.1, execCount := st.execCount + 1,
                inserted := st.inserted + (if res.2 then 1 else 0),
                updated := st.updated + (if res.2 then 0 else 1) }

/-- The result dict returned by `process_and_store_data`. -/
structure StoreResult where
  symbol : String
  records_inserted : ℕ
  records_updated : ℕ
  status : String
deriving Repr, DecidableEq

/-- Observable end state of one `process_and_store_data` call: the durable
(committed) table, whether a connection was opened, and whether every opened
connection was closed again before the call returned. -/
structure ProcState where
  store : List Row
  connOpened : Bool
  connReleased : Bool
deriving Repr, DecidableEq

/-- The body of `process_and_store_data` after the fetch, applied to the
payload the fetch produced.  Branches, in source order: missing
`'Time Series (60min)'` key → the "No time series data found" exception is
raised before `get_database_connection()` (no connection, no writes); a
failing connect → the error propagates with no connection opened; a database
error in the write loop or in `commit` → the outer `except` rolls back
(durable table unchanged), closes the connection, and re-raises; otherwise
`commit` publishes the transaction and the result dict is returned with
`status = 'success'`. -/
def process_and_store_with (symbol : String) (raw : Payload) (store : List Row)
    (nowTs : ℤ) (faults : DBFaults) : Except PipelineError StoreResult × ProcState :=
  match raw.timeSeries with
  | none => (.error (.dataShapeError symbol), ⟨store, false, true⟩)
  | some series =>
      if faults.connectFails then (.error .connectivityError, ⟨store, false, true⟩)
      else
        match write_loop symbol nowTs faults.execFails series ⟨store, 0, 0, 0⟩ with
        | .error e => (.error e, ⟨store, true, true⟩)
        | .ok st =>
            if faults.commitFails then (.error .databaseError, ⟨store, true, true⟩)
            else (.ok { symbol := symbol, records_inserted := st.inserted,
                        records_updated := st.updated, status := "success" },
                  ⟨st.pending, true, true⟩)

/-- Model of `process_and_store_data(symbol)`: re-fetches the payload itself via
`fetch_stock_data` and then runs the store body on it. -/
def process_and_store_data (symbol : String) (env : Env) (net : NetOutcome)
    (now : ℤ) (draws : Fin 5 → DemoDraw) (store : List Row) (nowTs : ℤ)
    (faults : DBFaults) : Except PipelineError StoreResult × ProcState :=
  process_and_store_with symbol (fetch_stock_data symbol env net now draws)
    store nowTs faults

/-! ## `validate_database_connection` -/

/-- Connection bookkeeping for `validate_database_connection`: whether a
connection was opened, and whether every opened connection was closed again
before the function returned. -/
structure ConnState where
  opened : Bool
  released : Bool
deriving Repr, DecidableEq

/-- Model of `validate_database_connection` from `stock_data_fetcher.py`.  If
`psycopg2.connect` fails, the error propagates with no connection opened.
If the `stock_prices` table exists, `cursor.close()` and `conn.close()` run
and `True` is returned.  If the table is absent, the "Required table not
found" exception is raised *before* the two `close()` calls and there is no
`finally` block, so the established connection is left open while the error
propagates through the re-raising `except` clause. -/
def validate_database_connection (connectFails : Bool) (tableExists : Bool) :
    Except PipelineError Bool × ConnState :=
  if connectFails then (.error .connectivityError, ⟨false, true⟩)
  else if tableExists then (.ok true, ⟨true, true⟩)
  else (.error .schemaError, ⟨true, false⟩)

/-! ## Helper lemmas -/

lemma round2_mono {a b : ℚ} (h : a ≤ b) : round2 a ≤ round2 b := by
  unfold round2
  have h1 : a * 100 + 1 / 2 ≤ b * 100 + 1 / 2 := by linarith
  have h2 := Int.floor_mono h1
  have h3 : ((⌊a * 100 + 1 / 2⌋ : ℤ) : ℚ) ≤ ((⌊b * 100 + 1 / 2⌋ : ℤ) : ℚ) := by
    exact_mod_cast h2
  linarith

lemma round2_int_div (n : ℤ) : round2 ((n : ℚ) / 100) = (n : ℚ) / 100 := by
  unfold round2
  have h : (n : ℚ) / 100 * 100 + 1 / 2 = (n : ℚ) + 1 / 2 := by ring
  rw [h, Int.floor_int_add]
  have h2 : ⌊(1 : ℚ) / 2⌋ = 0 := by norm_num
  rw [h2]
  push_cast
  ring

lemma round2_le_int_div {a : ℚ} {n : ℤ} (h : a ≤ (n : ℚ) / 100) :
    round2 a ≤ (n : ℚ) / 100 := by
  calc round2 a ≤ round2 ((n : ℚ) / 100) := round2_mono h
    _ = (n : ℚ) / 100 := round2_int_div n

lemma int_div_le_round2 {a : ℚ} {n : ℤ} (h : (n : ℚ) / 100 ≤ a) :
    (n : ℚ) / 100 ≤ round2 a := by
  calc (n : ℚ) / 100 = round2 ((n : ℚ) / 100) := (round2_int_div n).symm
    _ ≤ round2 a := round2_mono h

lemma basePrice_int (s : String) : ∃ n : ℤ, basePrice s = (n : ℚ) ∧ 0 < n := by
  unfold basePrice
  split_ifs
  · exact ⟨150, by norm_num⟩
  · exact ⟨2800, by norm_num⟩
  · exact ⟨300, by norm_num⟩
  · exact ⟨3000, by norm_num⟩
  · exact ⟨200, by norm_num⟩
  · exact ⟨100, by norm_num⟩

lemma get_demo_data_timeSeries (symbol : String) (now : ℤ) (draws : Fin 5 → DemoDraw) :
    (get_demo_data symbol now draws).timeSeries =
      some (demo_series (basePrice symbol) now draws) := rfl

lemma fetch_stock_data_hasSeries (symbol : String) (env : Env) (net : NetOutcome)
    (now : ℤ) (draws : Fin 5 → DemoDraw) :
    (fetch_stock_data symbol env net now draws).timeSeries.isSome = true := by
  cases net with
  | transportError =>
      by_cases h : api_key_invalid env <;>
        simp [fetch_stock_data, h, get_demo_data]
  | response d =>
      by_cases h : api_key_invalid env
      · simp [fetch_stock_data, h, get_demo_data]
      · rcases hts : d.timeSeries with _ | ts <;>
          by_cases he : d.errorMessage.isSome <;>
            by_cases hn : d.note.isSome <;>
              simp [fetch_stock_data, h, he, hn, hts, get_demo_data]

lemma parse_data_point_eq {symbol : String} {ts : TsStr} {v : RawEntry}
    {p : ParsedData} (h : parse_data_point symbol ts v = some p) :
    p.symbol = symbol ∧ strptime_model ts = some p.timestamp := by
  unfold parse_data_point at h
  split at h
  · rename_i t o hi l c vol heq1 heq2 heq3 heq4 heq5 heq6
    cases h
    exact ⟨rfl, heq1⟩
  · cases h

lemma hasKey_append (l1 l2 : List Row) (s : String) (t : ℤ) :
    hasKey (l1 ++ l2) s t = (hasKey l1 s t || hasKey l2 s t) := by
  simp [hasKey, List.any_append]

lemma hasKey_upsert (store : List Row) (p : ParsedData) (nowTs : ℤ)
    (s : String) (t : ℤ) :
    hasKey (upsert_stock_price store p nowTs).1 s t =
      (hasKey store s t || (p.symbol == s && p.timestamp == t)) := by
  unfold upsert_stock_price
  split
  · rename_i h
    show hasKey (store.map fun r =>
        if r.symbol == p.symbol && r.timestamp == p.timestamp then
          { r with open_price := p.open_price, high_price := p.high_price,
                   low_price := p.low_price, close_price := p.close_price,
                   volume := p.volume, created_at := nowTs }
        else r) s t = _
    have hmap : hasKey (store.map fun r =>
        if r.symbol == p.symbol && r.timestamp == p.timestamp then
          { r with open_price := p.open_price, high_price := p.high_price,
                   low_price := p.low_price, close_price := p.close_price,
                   volume := p.volume, created_at := nowTs }
        else r) s t = hasKey store s t := by
      unfold hasKey
      rw [List.any_map]
      apply congrArg
      funext r
      by_cases hr : r.symbol == p.symbol && r.timestamp == p.timestamp <;>
        simp [Function.comp, hr]
    rw [hmap]
    by_cases hk : (p.symbol == s && p.timestamp == t)
    · have hs : p.symbol = s ∧ p.timestamp = t := by
        simpa [Bool.and_eq_true, beq_iff_eq] using hk
      have hkey : hasKey store s t = true := by
        rw [← hs.1, ← hs.2]; exact h
      simp [hkey, hk]
    · simp [hk]
  · rename_i h
    show hasKey (store ++ [toRow p nowTs]) s t = _
    rw [hasKey_append]
    have hone : hasKey [toRow p nowTs] s t = (p.symbol == s && p.timestamp == t) := by
      simp [hasKey, toRow]
    rw [hone]

lemma hasKey_upsert_batch (nowTs : ℤ) (s : String) (t : ℤ) :
    ∀ (ps : List ParsedData) (store : List Row),
      hasKey (upsert_batch store ps nowTs) s t =
        (hasKey store s t || ps.any fun p => p.symbol == s && p.timestamp == t) := by
  intro ps
  induction ps with
  | nil => intro store; simp [upsert_batch]
  | cons p rest ih =>
      intro store
      have : upsert_batch store (p :: rest) nowTs =
          upsert_batch (upsert_stock_price store p nowTs).1 rest nowTs := rfl
      rw [this, ih, hasKey_upsert]
      simp [Bool.or_assoc]

lemma parsed_points_symbol {symbol : String} {entries : TimeSeries} :
    ∀ p ∈ parsed_points symbol entries, p.symbol = symbol := by
  intro p hp
  simp only [parsed_points, List.mem_filterMap] at hp
  obtain ⟨e, _, he⟩ := hp
  exact (parse_data_point_eq he).1

lemma write_loop_ok_char (symbol : String) (nowTs : ℤ) (ef : ℕ → Bool) :
    ∀ (entries : TimeSeries) (st st' : LoopSt),
      write_loop symbol nowTs ef entries st = .ok st' →
      st'.pending = upsert_batch st.pending (parsed_points symbol entries) nowTs ∧
      st'.inserted + st'.updated =
        st.inserted + st.updated + (parsed_points symbol entries).length := by
  intro entries
  induction entries with
  | nil =>
      intro st st' h
      cases h
      simp [upsert_batch, parsed_points]
  | cons e rest ih =>
      intro st st' h
      unfold write_loop at h
      cases hp : parse_data_point symbol e.1 e.2 with
      | none =>
          rw [hp] at h
          have := ih st st' h
          simpa [parsed_points, List.filterMap_cons, hp] using this
      | some p =>
          rw [hp] at h
          by_cases hf : ef st.execCount
          · simp [hf] at h
          · simp only [hf, if_false] at h
            have := ih _ st' h
            simp only [parsed_points, List.filterMap_cons, hp] at this ⊢
            obtain ⟨hpend, hcnt⟩ := this
            refine ⟨?_, ?_⟩
            · rw [hpend]
              rfl
            · rw [hcnt]
              rcases (upsert_stock_price st.pending p nowTs).2 <;> simp <;> omega

lemma write_loop_noFaults_ok (symbol : String) (nowTs : ℤ) :
    ∀ (entries : TimeSeries) (st : LoopSt), ∃ st',
      write_loop symbol nowTs (fun _ => false) entries st = .ok st' := by
  intro entries
  induction entries with
  | nil => intro st; exact ⟨st, rfl⟩
  | cons e rest ih =>
      intro st
      unfold write_loop
      cases hp : parse_data_point symbol e.1 e.2 with
      | none => exact ih st
      | some p => simpa using ih _

lemma uniqueKeysB_append_single {l : List Row} {r : Row}
    (hl : uniqueKeysB l = true) (hr : hasKey l r.symbol r.timestamp = false) :
    uniqueKeysB (l ++ [r]) = true := by
  induction l with
  | nil => simp [uniqueKeysB, hasKey]
  | cons x xs ih =>
      simp only [uniqueKeysB, Bool.and_eq_true, Bool.not_eq_true'] at hl
      simp only [hasKey, List.any_cons, Bool.or_eq_false_iff] at hr
      simp only [List.cons_append, uniqueKeysB, Bool.and_eq_true, Bool.not_eq_true']
      refine ⟨?_, ih hl.2 (by simpa [hasKey] using hr.2)⟩
      simp only [List.append_eq] at *
      rw [hasKey_append, Bool.or_eq_false_iff]
      refine ⟨hl.1, ?_⟩
      have hx : (x.symbol == r.symbol && x.timestamp == r.timestamp) = false := hr.1
      simp only [hasKey, List.any_cons, List.any_nil, Bool.or_false]
      simp only [Bool.and_eq_false_iff, beq_eq_false_iff_ne] at hx ⊢
      rcases hx with hx | hx
      · left; exact fun hc => hx hc.symm
      · right; exact fun hc => hx hc.symm

lemma check_env_char (env : Env) :
    check_environment_variables env =
      (if is_missing_env (env api_key_var) then
        .error (.configurationError [api_key_var]) else .ok true) := by
  unfold check_environment_variables missing_vars required_vars
  cases h : is_missing_env (env api_key_var) <;> simp [h, List.filter]

lemma write_loop_error_db (symbol : String) (nowTs : ℤ) (ef : ℕ → Bool) :
    ∀ (entries : TimeSeries) (st : LoopSt) (e : PipelineError),
      write_loop symbol nowTs ef entries st = .error e → e = .databaseError := by
  intro entries
  induction entries with
  | nil => intro st e h; cases h
  | cons x rest ih =>
      intro st e h
      unfold write_loop at h
      cases hp : parse_data_point symbol x.1 x.2 with
      | none => rw [hp] at h; exact ih _ _ h
      | some p =>
          rw [hp] at h
          by_cases hf : ef st.execCount
          · simp only [hf, if_true] at h
            cases h
            rfl
          · simp only [hf] at h
            exact ih _ _ h

/-- All-zero random draws (used to instantiate the universally quantified
theorems at a concrete point). -/
def zeroDraws : Fin 5 → DemoDraw := fun _ =>
  { variation := 0, highVar := 0, lowVar := 0, closeFrac := 0, vol := 100000 }

/-- The per-point bounds on one generated demo OHLCV tuple: low ≤ close ≤
high (both on the computed values and after `f'{·:.2f}'` rounding), open
within ±5% of the base price (computed and rounded), high within +2% of
open, low within −2% of open, and volume in [100000, 1000000]. -/
def DemoPointSpec (base : ℚ) (d : DemoDraw) : Prop :=
  demo_low base d ≤ demo_close base d ∧
  demo_close base d ≤ demo_high base d ∧
  round2 (demo_low base d) ≤ round2 (demo_close base d) ∧
  round2 (demo_close base d) ≤ round2 (demo_high base d) ∧
  base * (19 / 20) ≤ demo_open base d ∧
  demo_open base d ≤ base * (21 / 20) ∧
  base * (19 / 20) ≤ round2 (demo_open base d) ∧
  round2 (demo_open base d) ≤ base * (21 / 20) ∧
  demo_open base d ≤ demo_high base d ∧
  demo_high base d ≤ demo_open base d * (51 / 50) ∧
  demo_open base d * (49 / 50) ≤ demo_low base d ∧
  demo_low base d ≤ demo_open base d ∧
  100000 ≤ d.vol ∧ d.vol ≤ 1000000

lemma demoPointSpec_of_valid {base : ℚ} (hb : ∃ n : ℤ, base = (n : ℚ) ∧ 0 < n)
    {d : DemoDraw} (hd : d.Valid) : DemoPointSpec base d := by
  obtain ⟨n, hbn, hn⟩ := hb
  have hbpos : (0 : ℚ) < base := by rw [hbn]; exact_mod_cast hn
  obtain ⟨hv1, hv2, hh1, hh2, hl1, hl2, hc1, hc2, hV1, hV2⟩ := hd
  have ho_lb : base * (19 / 20) ≤ demo_open base d := by
    unfold demo_open; nlinarith
  have ho_ub : demo_open base d ≤ base * (21 / 20) := by
    unfold demo_open; nlinarith
  have ho_pos : (0 : ℚ) ≤ demo_open base d := by nlinarith
  have hhi_lb : demo_open base d ≤ demo_high base d := by
    unfold demo_high; nlinarith
  have hhi_ub : demo_high base d ≤ demo_open base d * (51 / 50) := by
    unfold demo_high; nlinarith
  have hlo_ub : demo_low base d ≤ demo_open base d := by
    unfold demo_low; nlinarith
  have hlo_lb : demo_open base d * (49 / 50) ≤ demo_low base d := by
    unfold demo_low; nlinarith
  have hlohi : demo_low base d ≤ demo_high base d := le_trans hlo_ub hhi_lb
  have hcl_lb : demo_low base d ≤ demo_close base d := by
    unfold demo_close; nlinarith
  have hcl_ub : demo_close base d ≤ demo_high base d := by
    unfold demo_close; nlinarith
  have h95 : base * (19 / 20) = ((95 * n : ℤ) : ℚ) / 100 := by
    rw [hbn]; push_cast; ring
  have h105 : base * (21 / 20) = ((105 * n : ℤ) : ℚ) / 100 := by
    rw [hbn]; push_cast; ring
  have hr_lb : base * (19 / 20) ≤ round2 (demo_open base d) := by
    rw [h95]
    exact int_div_le_round2 (by rw [← h95]; exact ho_lb)
  have hr_ub : round2 (demo_open base d) ≤ base * (21 / 20) := by
    rw [h105]
    exact round2_le_int_div (by rw [← h105]; exact ho_ub)
  exact ⟨hcl_lb, hcl_ub, round2_mono hcl_lb, round2_mono hcl_ub, ho_lb, ho_ub,
         hr_lb, hr_ub, hhi_lb, hhi_ub, hlo_lb, hlo_ub, hV1, hV2⟩

/-! ## Claim theorems -/

/-- C9 (confirmed): when the API-key environment variable is unset (or
empty, which Python's truthiness treats the same), `check_environment_variables`
raises a `ConfigurationError` naming every missing required credential — here
the single required variable — and succeeds when nothing is missing.  The
function reads only the process environment: its model takes no network or
database input, so no such call can precede the raise. -/
theorem check_environment_variables_spec (env : Env) :
    (is_missing_env (env api_key_var) = true →
      check_environment_variables env =
        .error (.configurationError [api_key_var])) ∧
    (is_missing_env (env api_key_var) = false →
      check_environment_variables env = .ok true) := by
  rw [check_env_char]
  constructor <;> intro h <;> simp [h]

/-- Witness for C9: with the variable unset the guard raises naming it; with
it set to a non-empty value the guard succeeds. -/
theorem check_environment_variables_spec_witness :
    check_environment_variables (fun _ => none) =
      .error (.configurationError [api_key_var]) ∧
    check_environment_variables (fun _ => some api_key_var) = .ok true :=
  ⟨(check_environment_variables_spec (fun _ => none)).1 rfl,
   (check_environment_variables_spec (fun _ => some api_key_var)).2 (by decide)⟩

/-- C3 counterexample: on the path where the connection is established but
the `stock_prices` table is absent, `validate_database_connection` raises
with the connection still open (`released = false`) — the claim that it
always releases the connection fails here. -/
theorem validate_database_connection_leak :
    validate_database_connection false false =
      (.error .schemaError, ⟨true, false⟩) := rfl

/-- C3 (corrected): `validate_database_connection` releases its connection
on the success path, opens none when the connect itself fails, but on the
table-absent path the `SchemaError` propagates with the established
connection left open (there is no `finally` closing it). -/
theorem validate_database_connection_release_paths (cf te : Bool) :
    (cf = false → te = true →
      validate_database_connection cf te = (.ok true, ⟨true, true⟩)) ∧
    (cf = true →
      validate_database_connection cf te =
        (.error .connectivityError, ⟨false, true⟩)) ∧
    (cf = false → te = false →
      validate_database_connection cf te = (.error .schemaError, ⟨true, false⟩)) := by
  cases cf <;> cases te <;> simp [validate_database_connection]

/-- Witness for C3's corrected statement: the success path does close the
connection. -/
theorem validate_database_connection_release_paths_witness :
    validate_database_connection false true = (.ok true, ⟨true, true⟩) :=
  (validate_database_connection_release_paths false true).1 rfl rfl

/-- C6 counterexample: with the credential absent, the pipeline's first task
(`check_environment_variables`, wired as the DAG's entry task) raises a
`ConfigurationError` — so a task of the pipeline does fail because the
credential is absent, contradicting the claim. -/
theorem credential_absent_guard_fails :
    check_environment_variables (fun _ => none) =
      .error (.configurationError [api_key_var]) := rfl

/-- C6 (corrected): a placeholder API key passes the environment guard and
makes `fetch_stock_data` return synthetic data with no network call (the
result does not depend on the network outcome); an absent key also makes
`fetch_stock_data` return synthetic data with no network call, but the
environment guard task then fails with a `ConfigurationError`, so the
pipeline halts at the guard rather than running in synthetic mode. -/
theorem credential_absent_vs_placeholder (env : Env) (symbol : String)
    (now : ℤ) (draws : Fin 5 → DemoDraw) :
    (env api_key_var = some ("your_api_key_here") →
      check_environment_variables env = .ok true ∧
      ∀ net, fetch_stock_data symbol env net now draws =
        get_demo_data symbol now draws) ∧
    (env api_key_var = none →
      check_environment_variables env =
        .error (.configurationError [api_key_var]) ∧
      ∀ net, fetch_stock_data symbol env net now draws =
        get_demo_data symbol now draws) := by
  constructor
  · intro h
    constructor
    · rw [check_env_char, h]
      simp [is_missing_env]
    · intro net
      have hk : api_key_invalid env = true := by
        unfold api_key_invalid
        rw [h]
        decide
      cases net <;> simp [fetch_stock_data, hk]
  · intro h
    constructor
    · rw [check_env_char, h]
      simp [is_missing_env]
    · intro net
      have hk : api_key_invalid env = true := by
        unfold api_key_invalid
        rw [h]
      cases net <;> simp [fetch_stock_data, hk]

/-- Witness for C6's corrected statement: placeholder key → guard passes and
fetch returns demo data; absent key → fetch still returns demo data (here
even when a well-formed response would have been available). -/
theorem credential_absent_vs_placeholder_witness :
    check_environment_variables (fun _ => some ("your_api_key_here")) = .ok true ∧
    fetch_stock_data ("AAPL") (fun _ => some ("your_api_key_here"))
        .transportError 0 zeroDraws = get_demo_data ("AAPL") 0 zeroDraws ∧
    fetch_stock_data ("AAPL") (fun _ => none)
        (.response ⟨none, none, some []⟩) 0 zeroDraws =
      get_demo_data ("AAPL") 0 zeroDraws :=
  ⟨((credential_absent_vs_placeholder (fun _ => some ("your_api_key_here"))
      ("AAPL") 0 zeroDraws).1 rfl).1,
   ((credential_absent_vs_placeholder (fun _ => some ("your_api_key_here"))
      ("AAPL") 0 zeroDraws).1 rfl).2 .transportError,
   ((credential_absent_vs_placeholder (fun _ => none)
      ("AAPL") 0 zeroDraws).2 rfl).2 (.response ⟨none, none, some []⟩)⟩

/-- C10 (confirmed): for any symbol outside the five configured ones the
base price defaults to 100.0 and the synthetic generator still produces a
well-formed 5-entry time series — `fetch_stock_data`'s synthetic mode is
total over all symbol strings. -/
theorem unknown_symbol_default_base (symbol : String) (now : ℤ)
    (draws : Fin 5 → DemoDraw)
    (h : ¬ symbol ∈ (["AAPL", "GOOGL", "MSFT", "AMZN", "TSLA"] : List String)) :
    basePrice symbol = 100 ∧
    (get_demo_data symbol now draws).timeSeries =
      some (demo_series 100 now draws) ∧
    (demo_series 100 now draws).length = 5 := by
  have hb : basePrice symbol = 100 := by
    simp only [List.mem_cons, List.not_mem_nil, or_false, not_or] at h
    obtain ⟨h1, h2, h3, h4, h5⟩ := h
    simp [basePrice, h1, h2, h3, h4, h5]
  refine ⟨hb, ?_, by simp [demo_series]⟩
  rw [get_demo_data_timeSeries, hb]

/-- Witness for C10 at the unconfigured symbol "NFLX". -/
theorem unknown_symbol_default_base_witness :
    basePrice ("NFLX") = 100 ∧ (demo_series 100 0 zeroDraws).length = 5 :=
  ⟨(unknown_symbol_default_base ("NFLX") 0 zeroDraws (by decide)).1,
   (unknown_symbol_default_base ("NFLX") 0 zeroDraws (by decide)).2.2⟩

/-- C7 (confirmed): absent a valid credential `fetch_stock_data` returns the
synthetic payload, whose time-series mapping has exactly 5 entries keyed by
the current hour and the 4 preceding hours (pairwise distinct keys), and for
every outcome of the random draws within their `random.uniform` /
`random.randint` ranges each entry satisfies `DemoPointSpec`: low ≤ close ≤
high, open within ±5% of the symbol's configured base price (also after the
2-decimal formatting), high within +2% of open, low within −2% of open, and
volume an integer in [100000, 1000000]. -/
theorem demo_data_bounds (symbol : String) (env : Env) (net : NetOutcome)
    (now : ℤ) (draws : Fin 5 → DemoDraw)
    (hkey : api_key_invalid env = true)
    (hv : ∀ i, (draws i).Valid) :
    fetch_stock_data symbol env net now draws = get_demo_data symbol now draws ∧
    (get_demo_data symbol now draws).timeSeries =
      some (demo_series (basePrice symbol) now draws) ∧
    (demo_series (basePrice symbol) now draws).length = 5 ∧
    demo_series (basePrice symbol) now draws =
      List.ofFn (fun i : Fin 5 =>
        (TsStr.valid (now - (i.val : ℤ)),
         demo_entry (basePrice symbol) (draws i))) ∧
    (∀ i j : Fin 5, i ≠ j →
      TsStr.valid (now - (i.val : ℤ)) ≠ TsStr.valid (now - (j.val : ℤ))) ∧
    (∀ i : Fin 5, DemoPointSpec (basePrice symbol) (draws i)) := by
  refine ⟨by simp [fetch_stock_data, hkey], rfl, by simp [demo_series], rfl, ?_, ?_⟩
  · intro i j hij hc
    injection hc with hc
    have : (i.val : ℤ) = (j.val : ℤ) := by omega
    exact hij (Fin.ext (by exact_mod_cast this))
  · intro i
    exact demoPointSpec_of_valid (basePrice_int symbol) (hv i)

/-- Witness for C7 at symbol "AAPL", an absent key, and the all-zero draws. -/
theorem demo_data_bounds_witness :
    api_key_invalid (fun _ => none) = true ∧
    (zeroDraws 0).Valid ∧
    DemoPointSpec (basePrice ("AAPL")) (zeroDraws 0) :=
  ⟨rfl, by norm_num [zeroDraws, DemoDraw.Valid],
   (demo_data_bounds ("AAPL") (fun _ => none) .transportError 0 zeroDraws rfl
     (fun i => by norm_num [zeroDraws, DemoDraw.Valid])).2.2.2.2.2 0⟩

/-- C2 (confirmed): `fetch_stock_data` never propagates an exception — its
model is a total function into `Payload`.  A transport/timeout failure, a
provider `'Error Message'` field (whose raised exception is caught by the
blanket `except`), a `'Note'` rate-limit notice, and an absent
`'Time Series (60min)'` key each yield the synthetic payload (which always
carries a time-series mapping of the genuine nested shape); only a payload
containing the time-series key is returned unmodified. -/
theorem fetch_stock_data_no_raise (symbol : String) (env : Env)
    (net : NetOutcome) (now : ℤ) (draws : Fin 5 → DemoDraw) :
    ((fetch_stock_data symbol env net now draws).timeSeries.isSome = true) ∧
    (net = .transportError →
      fetch_stock_data symbol env net now draws =
        get_demo_data symbol now draws) ∧
    (∀ d, net = .response d → d.errorMessage.isSome = true →
      fetch_stock_data symbol env net now draws =
        get_demo_data symbol now draws) ∧
    (∀ d, net = .response d → d.note.isSome = true →
      fetch_stock_data symbol env net now draws =
        get_demo_data symbol now draws) ∧
    (∀ d, net = .response d → d.timeSeries = none →
      fetch_stock_data symbol env net now draws =
        get_demo_data symbol now draws) ∧
    (∀ d, net = .response d → api_key_invalid env = false →
      d.errorMessage = none → d.note = none → d.timeSeries.isSome = true →
      fetch_stock_data symbol env net now draws = d) := by
  refine ⟨fetch_stock_data_hasSeries symbol env net now draws, ?_, ?_, ?_, ?_, ?_⟩
  · intro h
    subst h
    by_cases hk : api_key_invalid env <;> simp [fetch_stock_data, hk]
  · intro d h he
    subst h
    by_cases hk : api_key_invalid env <;> simp [fetch_stock_data, hk, he]
  · intro d h hn
    subst h
    by_cases hk : api_key_invalid env
    · simp [fetch_stock_data, hk]
    · by_cases he : d.errorMessage.isSome <;>
        simp [fetch_stock_data, hk, he, hn]
  · intro d h hts
    subst h
    by_cases hk : api_key_invalid env
    · simp [fetch_stock_data, hk]
    · by_cases he : d.errorMessage.isSome <;>
        by_cases hn : d.note.isSome <;>
          simp [fetch_stock_data, hk, he, hn, hts]
  · intro d h hk he hn hts
    subst h
    rcases hts' : d.timeSeries with _ | series
    · rw [hts'] at hts; simp at hts
    · simp [fetch_stock_data, hk, he, hn, hts']

/-- Witness for C2: each fallback cause at a concrete input, plus the
pass-through of a well-formed payload. -/
theorem fetch_stock_data_no_raise_witness :
    fetch_stock_data ("AAPL") (fun _ => some ("k")) .transportError 0 zeroDraws =
      get_demo_data ("AAPL") 0 zeroDraws ∧
    fetch_stock_data ("AAPL") (fun _ => some ("k"))
        (.response ⟨some ("boom"), none, none⟩) 0 zeroDraws =
      get_demo_data ("AAPL") 0 zeroDraws ∧
    fetch_stock_data ("AAPL") (fun _ => some ("k"))
        (.response ⟨none, some ("limit"), none⟩) 0 zeroDraws =
      get_demo_data ("AAPL") 0 zeroDraws ∧
    fetch_stock_data ("AAPL") (fun _ => some ("k"))
        (.response ⟨none, none, none⟩) 0 zeroDraws =
      get_demo_data ("AAPL") 0 zeroDraws ∧
    fetch_stock_data ("AAPL") (fun _ => some ("k"))
        (.response ⟨none, none, some []⟩) 0 zeroDraws =
      (⟨none, none, some []⟩ : Payload) :=
  ⟨(fetch_stock_data_no_raise ("AAPL") (fun _ => some ("k")) .transportError
      0 zeroDraws).2.1 rfl,
   (fetch_stock_data_no_raise ("AAPL") (fun _ => some ("k"))
      (.response ⟨some ("boom"), none, none⟩) 0 zeroDraws).2.2.1
      ⟨some ("boom"), none, none⟩ rfl rfl,
   (fetch_stock_data_no_raise ("AAPL") (fun _ => some ("k"))
      (.response ⟨none, some ("limit"), none⟩) 0 zeroDraws).2.2.2.1
      ⟨none, some ("limit"), none⟩ rfl rfl,
   (fetch_stock_data_no_raise ("AAPL") (fun _ => some ("k"))
      (.response ⟨none, none, none⟩) 0 zeroDraws).2.2.2.2.1
      ⟨none, none, none⟩ rfl rfl,
   (fetch_stock_data_no_raise ("AAPL") (fun _ => some ("k"))
      (.response ⟨none, none, some []⟩) 0 zeroDraws).2.2.2.2.2
      ⟨none, none, some []⟩ rfl (by decide) rfl rfl rfl⟩

/-- C8 (confirmed): a payload without the `'Time Series (60min)'` key makes
`process_and_store_data`'s body raise the data-shape error before any
database connection or write (the durable store is untouched and no
connection is opened); and the branch is unreachable through the real fetch:
every payload `fetch_stock_data` returns carries the key, so the composed
`process_and_store_data` can never fail with a data-shape error. -/
theorem data_shape_error_guard :
    (∀ (symbol : String) (p : Payload) (store : List Row) (nowTs : ℤ)
        (faults : DBFaults), p.timeSeries = none →
      process_and_store_with symbol p store nowTs faults =
        (.error (.dataShapeError symbol), ⟨store, false, true⟩)) ∧
    (∀ (symbol : String) (env : Env) (net : NetOutcome) (now : ℤ)
        (draws : Fin 5 → DemoDraw),
      (fetch_stock_data symbol env net now draws).timeSeries.isSome = true) ∧
    (∀ (symbol s : String) (env : Env) (net : NetOutcome) (now nowTs : ℤ)
        (draws : Fin 5 → DemoDraw) (store : List Row) (faults : DBFaults),
      (process_and_store_data symbol env net now draws store nowTs faults).1 ≠
        .error (.dataShapeError s)) := by
  refine ⟨?_, fetch_stock_data_hasSeries, ?_⟩
  · intro symbol p store nowTs faults h
    unfold process_and_store_with
    rw [h]
  · intro symbol s env net now nowTs draws store faults
    unfold process_and_store_data process_and_store_with
    have hsome := fetch_stock_data_hasSeries symbol env net now draws
    rcases hts : (fetch_stock_data symbol env net now draws).timeSeries with _ | series
    · rw [hts] at hsome; simp at hsome
    · by_cases hc : faults.connectFails
      · simp [hc]
      · simp only [hc, Bool.false_eq_true, if_false]
        cases hw : write_loop symbol nowTs faults.execFails series ⟨store, 0, 0, 0⟩ with
        | error e =>
            have := write_loop_error_db symbol nowTs faults.execFails series
              ⟨store, 0, 0, 0⟩ e hw
            subst this
            simp
        | ok st =>
            by_cases hcm : faults.commitFails <;> simp [hcm]

/-- Witness for C8: the guard fires on a key-less payload with no store
change and no connection, and the real fetch always supplies the key. -/
theorem data_shape_error_guard_witness :
    process_and_store_with ("AAPL") ⟨none, none, none⟩ [] 0 noFaults =
      (.error (.dataShapeError ("AAPL")), ⟨[], false, true⟩) ∧
    (fetch_stock_data ("AAPL") (fun _ => none) .transportError 0
      zeroDraws).timeSeries.isSome = true :=
  ⟨data_shape_error_guard.1 ("AAPL") ⟨none, none, none⟩ [] 0 noFaults rfl,
   data_shape_error_guard.2.1 ("AAPL") (fun _ => none) .transportError 0 zeroDraws⟩

/-- C5 (confirmed): all writes of one `process_and_store_data` call live in a
single transaction — when the call returns success the durable table equals
the batch of upserts over every parsed entry, published by the one `commit`
after the whole loop; and when any exception is raised (during the loop or
the commit, under any injected faults) the durable table is unchanged
(rollback) and the transaction's connection is released before the error
propagates. -/
theorem transaction_rollback_atomic (symbol : String) (entries : TimeSeries)
    (store : List Row) (nowTs : ℤ) (faults : DBFaults) :
    (∀ e, (process_and_store_with symbol ⟨none, none, some entries⟩
        store nowTs faults).1 = .error e →
      (process_and_store_with symbol ⟨none, none, some entries⟩
        store nowTs faults).2.store = store ∧
      (process_and_store_with symbol ⟨none, none, some entries⟩
        store nowTs faults).2.connReleased = true) ∧
    (∀ res, (process_and_store_with symbol ⟨none, none, some entries⟩
        store nowTs faults).1 = .ok res →
      (process_and_store_with symbol ⟨none, none, some entries⟩
        store nowTs faults).2.store =
        upsert_batch store (parsed_points symbol entries) nowTs ∧
      res.status = "success") := by
  unfold process_and_store_with
  by_cases hc : faults.connectFails
  · simp [hc]
  · simp only [hc, Bool.false_eq_true, if_false]
    cases hw : write_loop symbol nowTs faults.execFails entries ⟨store, 0, 0, 0⟩ with
    | error e => simp
    | ok st =>
        by_cases hcm : faults.commitFails
        · simp [hcm]
        · simp only [hcm, Bool.false_eq_true, if_false]
          have hchar := write_loop_ok_char symbol nowTs faults.execFails entries
            ⟨store, 0, 0, 0⟩ st hw
          constructor
          · intro e he
            simp at he
          · intro res hres
            simp only [Except.ok.injEq] at hres
            subst hres
            exact ⟨by simpa using hchar.1, rfl⟩

/-- Helper fault set for the C5 witness: only the commit fails. -/
def commitFaults : DBFaults :=
  { connectFails := false, execFails := fun _ => false, commitFails := true }

/-- Witness for C5: a failing commit leaves the durable store untouched and
the connection released. -/
theorem transaction_rollback_atomic_witness :
    (process_and_store_with ("AAPL") ⟨none, none, some []⟩ [] 0
      commitFaults).2.store = ([] : List Row) ∧
    (process_and_store_with ("AAPL") ⟨none, none, some []⟩ [] 0
      commitFaults).2.connReleased = true :=
  (transaction_rollback_atomic ("AAPL") [] [] 0 commitFaults).1
    .databaseError rfl

/-- C4 (confirmed): with a fault-free database, a per-entry parse failure is
skipped without aborting the batch: the call still returns success, the two
counters sum to exactly the number of entries that parsed (malformed entries
excluded), the final store is the batch of upserts of the parsed entries
only, and a key is present in the final store exactly when it was already
present or belongs to a successfully parsed entry — so a malformed entry
contributes no row. -/
theorem per_entry_parse_skip (symbol : String) (entries : TimeSeries)
    (store : List Row) (nowTs : ℤ) :
    (∃ ins upd,
      (process_and_store_with symbol ⟨none, none, some entries⟩
        store nowTs noFaults).1 =
        .ok { symbol := symbol, records_inserted := ins,
              records_updated := upd, status := "success" } ∧
      ins + upd = (parsed_points symbol entries).length) ∧
    (process_and_store_with symbol ⟨none, none, some entries⟩
      store nowTs noFaults).2 =
      ⟨upsert_batch store (parsed_points symbol entries) nowTs, true, true⟩ ∧
    (∀ (s : String) (t : ℤ),
      hasKey (upsert_batch store (parsed_points symbol entries) nowTs) s t =
        (hasKey store s t ||
          (parsed_points symbol entries).any fun p =>
            p.symbol == s && p.timestamp == t)) := by
  obtain ⟨st, hst⟩ := write_loop_noFaults_ok symbol nowTs entries ⟨store, 0, 0, 0⟩
  have hchar := write_loop_ok_char symbol nowTs (fun _ => false) entries
    ⟨store, 0, 0, 0⟩ st hst
  have hproc : process_and_store_with symbol ⟨none, none, some entries⟩
      store nowTs noFaults =
      (.ok { symbol := symbol, records_inserted := st.inserted,
             records_updated := st.updated, status := "success" },
       ⟨st.pending, true, true⟩) := by
    unfold process_and_store_with
    simp [noFaults, hst]
  refine ⟨⟨st.inserted, st.updated, by rw [hproc], by simpa using hchar.2⟩, ?_,
    fun s t => hasKey_upsert_batch nowTs s t (parsed_points symbol entries) store⟩
  rw [hproc]
  have hpend : st.pending = upsert_batch store (parsed_points symbol entries) nowTs := by
    simpa using hchar.1
  rw [hpend]

/-- C1 (confirmed): the upsert keeps at most one row per (symbol, timestamp)
key.  Processing a single-entry payload twice for the same (symbol,
timestamp): the first call reports 1 insert / 0 updates and appends the row;
the second call (with possibly different field values) reports 0 inserts / 1
update, overwrites all four price fields and the volume in place, and
refreshes the `created_at` marker to the second call's clock; exactly one
row with that key is stored, the store's key-uniqueness invariant is
preserved, and each call returns the record {symbol, inserted count, updated
count, success}. -/
theorem upsert_twice_single_row (symbol : String) (ts : TsStr) (e1 e2 : RawEntry)
    (store : List Row) (t1 t2 : ℤ) (p1 p2 : ParsedData)
    (h1 : parse_data_point symbol ts e1 = some p1)
    (h2 : parse_data_point symbol ts e2 = some p2)
    (hfresh : hasKey store symbol p1.timestamp = false)
    (huniq : uniqueKeysB store = true) :
    process_and_store_with symbol ⟨none, none, some [(ts, e1)]⟩ store t1 noFaults =
      (.ok { symbol := symbol, records_inserted := 1, records_updated := 0,
             status := "success" },
       ⟨store ++ [toRow p1 t1], true, true⟩) ∧
    process_and_store_with symbol ⟨none, none, some [(ts, e2)]⟩
        (store ++ [toRow p1 t1]) t2 noFaults =
      (.ok { symbol := symbol, records_inserted := 0, records_updated := 1,
             status := "success" },
       ⟨store ++ [toRow p2 t2], true, true⟩) ∧
    countKey (store ++ [toRow p2 t2]) symbol p1.timestamp = 1 ∧
    uniqueKeysB (store ++ [toRow p2 t2]) = true := by
  obtain ⟨hsym1, hts1⟩ := parse_data_point_eq h1
  obtain ⟨hsym2, hts2⟩ := parse_data_point_eq h2
  have hteq : p2.timestamp = p1.timestamp := by
    have h := hts1.symm.trans hts2
    injection h with h
    exact h.symm
  have hkey1 : hasKey store p1.symbol p1.timestamp = false := by
    rw [hsym1]; exact hfresh
  have hnotin : ∀ r ∈ store,
      (r.symbol == symbol && r.timestamp == p1.timestamp) = false := by
    intro r hr
    cases hb : (r.symbol == symbol && r.timestamp == p1.timestamp) with
    | false => rfl
    | true =>
        have hcon : hasKey store symbol p1.timestamp = true := by
          unfold hasKey
          rw [List.any_eq_true]
          exact ⟨r, hr, hb⟩
        rw [hcon] at hfresh
        cases hfresh
  have hup1 : upsert_stock_price store p1 t1 = (store ++ [toRow p1 t1], true) := by
    unfold upsert_stock_price
    rw [hkey1]
    simp
  have hw1 : write_loop symbol t1 (fun _ => false) [(ts, e1)] ⟨store, 0, 0, 0⟩ =
      .ok ⟨store ++ [toRow p1 t1], 1, 1, 0⟩ := by
    unfold write_loop
    rw [h1]
    simp only [Bool.false_eq_true, if_false, hup1]
    rfl
  have call1 : process_and_store_with symbol ⟨none, none, some [(ts, e1)]⟩
      store t1 noFaults =
      (.ok { symbol := symbol, records_inserted := 1, records_updated := 0,
             status := "success" },
       ⟨store ++ [toRow p1 t1], true, true⟩) := by
    unfold process_and_store_with
    simp [noFaults, hw1]
  have hkey2 : hasKey (store ++ [toRow p1 t1]) p2.symbol p2.timestamp = true := by
    rw [hsym2, hteq, hasKey_append]
    have hone : hasKey [toRow p1 t1] symbol p1.timestamp = true := by
      simp [hasKey, toRow, hsym1]
    simp [hone]
  have hmap : (store ++ [toRow p1 t1]).map (fun r =>
      if r.symbol == p2.symbol && r.timestamp == p2.timestamp then
        { r with open_price := p2.open_price, high_price := p2.high_price,
                 low_price := p2.low_price, close_price := p2.close_price,
                 volume := p2.volume, created_at := t2 }
      else r) = store ++ [toRow p2 t2] := by
    rw [List.map_append]
    congr 1
    · have hid : ∀ r ∈ store, (if r.symbol == p2.symbol &&
          r.timestamp == p2.timestamp then
          { r with open_price := p2.open_price, high_price := p2.high_price,
                   low_price := p2.low_price, close_price := p2.close_price,
                   volume := p2.volume, created_at := t2 }
        else r) = id r := by
        intro r hr
        have hc : (r.symbol == p2.symbol && r.timestamp == p2.timestamp) = false := by
          rw [hsym2, hteq]
          exact hnotin r hr
        simp [hc]
      rw [List.map_congr_left hid, List.map_id]
    · simp only [List.map_cons, List.map_nil]
      have hc : ((toRow p1 t1).symbol == p2.symbol &&
          (toRow p1 t1).timestamp == p2.timestamp) = true := by
        simp [toRow, hsym1, hsym2, hteq]
      rw [if_pos hc]
      have hrw : ({ toRow p1 t1 with
          open_price := p2.open_price,
          high_price := p2.high_price, low_price := p2.low_price,
          close_price := p2.close_price, volume := p2.volume,
          created_at := t2 } : Row) = toRow p2 t2 := by
        simp [toRow, hsym1, hsym2, hteq]
      rw [hrw]
  have hup2 : upsert_stock_price (store ++ [toRow p1 t1]) p2 t2 =
      (store ++ [toRow p2 t2], false) := by
    unfold upsert_stock_price
    rw [hkey2]
    simp only [if_true]
    rw [hmap]
  have hw2 : write_loop symbol t2 (fun _ => false) [(ts, e2)]
      ⟨store ++ [toRow p1 t1], 0, 0, 0⟩ =
      .ok ⟨store ++ [toRow p2 t2], 1, 0, 1⟩ := by
    unfold write_loop
    rw [h2]
    simp only [Bool.false_eq_true, if_false, hup2]
    rfl
  have call2 : process_and_store_with symbol ⟨none, none, some [(ts, e2)]⟩
      (store ++ [toRow p1 t1]) t2 noFaults =
      (.ok { symbol := symbol, records_inserted := 0, records_updated := 1,
             status := "success" },
       ⟨store ++ [toRow p2 t2], true, true⟩) := by
    unfold process_and_store_with
    simp [noFaults, hw2]
  have hcount : countKey (store ++ [toRow p2 t2]) symbol p1.timestamp = 1 := by
    unfold countKey
    rw [List.filter_append]
    have hnil : store.filter
        (fun r => r.symbol == symbol && r.timestamp == p1.timestamp) = [] := by
      rw [List.filter_eq_nil_iff]
      intro r hr hcon
      rw [hnotin r hr] at hcon
      cases hcon
    rw [hnil]
    simp [toRow, hsym2, hteq]
  have hr2 : hasKey store (toRow p2 t2).symbol (toRow p2 t2).timestamp = false := by
    have hs : (toRow p2 t2).symbol = symbol := by rw [toRow]; exact hsym2
    have ht : (toRow p2 t2).timestamp = p1.timestamp := by rw [toRow]; exact hteq
    rw [hs, ht]
    exact hfresh
  exact ⟨call1, call2, hcount, uniqueKeysB_append_single huniq hr2⟩

/-- Sample well-formed raw entry for the C1 witness (first write). -/
def wEntry1 : RawEntry :=
  { open1 := some (.floatStr 1), high2 := some (.floatStr 2),
    low3 := some (.floatStr 1), close4 := some (.floatStr 2),
    volume5 := some (.intStr 5) }

/-- Sample well-formed raw entry for the C1 witness (second write, new values). -/
def wEntry2 : RawEntry :=
  { open1 := some (.floatStr 10), high2 := some (.floatStr 20),
    low3 := some (.floatStr 10), close4 := some (.floatStr 20),
    volume5 := some (.intStr 50) }

/-- Parsed form of `wEntry1`. -/
def wParsed1 : ParsedData :=
  { symbol := "AAPL", timestamp := 0, open_price := 1, high_price := 2,
    low_price := 1, close_price := 2, volume := 5 }

/-- Parsed form of `wEntry2`. -/
def wParsed2 : ParsedData :=
  { symbol := "AAPL", timestamp := 0, open_price := 10, high_price := 20,
    low_price := 10, close_price := 20, volume := 50 }

/-- Witness for C1: the double upsert at a concrete single-entry payload
from the empty store. -/
theorem upsert_twice_single_row_witness :
    process_and_store_with ("AAPL") ⟨none, none, some [(.valid 0, wEntry1)]⟩
        ([] : List Row) 0 noFaults =
      (.ok { symbol := "AAPL", records_inserted := 1, records_updated := 0,
             status := "success" },
       ⟨[] ++ [toRow wParsed1 0], true, true⟩) ∧
    process_and_store_with ("AAPL") ⟨none, none, some [(.valid 0, wEntry2)]⟩
        ([] ++ [toRow wParsed1 0]) 1 noFaults =
      (.ok { symbol := "AAPL", records_inserted := 0, records_updated := 1,
             status := "success" },
       ⟨[] ++ [toRow wParsed2 1], true, true⟩) ∧
    countKey ([] ++ [toRow wParsed2 1]) ("AAPL") wParsed1.timestamp = 1 ∧
    uniqueKeysB ([] ++ [toRow wParsed2 1]) = true :=
  upsert_twice_single_row ("AAPL") (.valid 0) wEntry1 wEntry2 [] 0 1
    wParsed1 wParsed2 rfl rfl rfl rfl

end StockPipeline
